import Mathlib

/-!
Verification development for `scripts/smiles_to_image.py`: a command-line
tool that resolves a SMILES string from one of several sources, parses it
with an external cheminformatics library, and renders it to an SVG or
raster image file.

The Python script is shallowly embedded below.  Python strings are Lean
`String`s; `str.strip`, `str.splitlines`, `str.lower`, `pathlib.Path.name`,
`.suffix` and `.parent` are modelled by executable Lean functions
(restricted to ASCII text, which covers every string the script compares
against).  The external library (RDKit) is abstracted as a `Lib` structure
of opaque operations; filesystem writes are recorded as an explicit effect
trace; `SystemExit` and unhandled exceptions become an error type.
-/

namespace SmilesToImage

/-- ASCII whitespace stripped by Python `str.strip()` (the ASCII part of
`str.isspace`): space, tab, newline, carriage return, vertical tab,
form feed. -/
def isPySpace (c : Char) : Bool :=
  c = ' ' || c = '\t' || c = '\n' || c = '\r' || c = '\x0b' || c = '\x0c'

/-- Python `s.strip()`: remove leading and trailing whitespace. -/
def pyStrip (s : String) : String :=
  String.mk (((s.data.dropWhile isPySpace).reverse.dropWhile isPySpace).reverse)

/-- Worker for `pySplitlines`: `acc` holds the current line reversed. -/
def splitlinesGo : List Char → List Char → List String
  | [], [] => []
  | [], acc => [String.mk acc.reverse]
  | '\r' :: '\n' :: rest, acc => String.mk acc.reverse :: splitlinesGo rest []
  | '\n' :: rest, acc => String.mk acc.reverse :: splitlinesGo rest []
  | '\r' :: rest, acc => String.mk acc.reverse :: splitlinesGo rest []
  | c :: rest, acc => splitlinesGo rest (c :: acc)

/-- Python `s.splitlines()` over the `\n`, `\r\n` and `\r` line boundaries:
line ends are dropped, a trailing newline produces no extra empty line, and
the empty string yields `[]`. -/
def pySplitlines (s : String) : List String :=
  splitlinesGo s.data []

/-- ASCII lowercasing of one character, as Python `str.lower` acts on
ASCII. -/
def asciiLowerChar (c : Char) : Char :=
  if 'A' ≤ c ∧ c ≤ 'Z' then Char.ofNat (c.toNat + 32) else c

/-- ASCII `str.lower()`. -/
def asciiLower (s : String) : String :=
  String.mk (s.data.map asciiLowerChar)

/-- `pathlib.PurePosixPath(p).name`: the final path component, with any
trailing slashes removed. -/
def pathName (p : String) : String :=
  let cs := p.data.reverse.dropWhile (· = '/')
  String.mk ((cs.takeWhile (· ≠ '/')).reverse)

/-- `pathlib.PurePosixPath(p).suffix`: `name[i:]` where `i` is the index of
the last dot of the name, provided `0 < i < len(name) - 1`; otherwise the
empty string. -/
def pathSuffix (p : String) : String :=
  let n := (pathName p).data
  let afterDot := n.reverse.takeWhile (· ≠ '.')
  if afterDot.length = n.length then ""
  else
    let i := n.length - afterDot.length - 1
    if 0 < i ∧ i + 1 < n.length then String.mk ('.' :: afterDot.reverse)
    else ""

/-- `pathlib.PurePosixPath(p).parent`: drop the final component and the
separators before it; `"."` for a bare name, `"/"` below the root. -/
def pathParent (p : String) : String :=
  let cs := p.data.reverse.dropWhile (· = '/')
  let rest := cs.dropWhile (· ≠ '/')
  let rest2 := rest.dropWhile (· = '/')
  if rest2.isEmpty then
    (if rest.isEmpty then "." else "/")
  else String.mk rest2.reverse

/-- The parsed command line (`argparse.Namespace`): `--smiles` and
`--input` are optional (`None` when absent), `--output` is required, and
`--size` defaults to `400 300`.  An `--input` value is kept as the path
string. -/
structure Args where
  smiles : Option String
  input : Option String
  output : String
  width : Int
  height : Int
deriving DecidableEq, Repr

/-- Python truthiness of `args.smiles` (an optional string): `None` and
`""` are falsy. -/
def optStrTruthy : Option String → Bool
  | none => false
  | some s => decide (s ≠ "")

/-- How an embedded run can fail: `systemExit m` is
`raise SystemExit(m)` — message `m` on stderr and exit status 1; `uncaught
e` is an unhandled Python exception `e` (traceback on stderr, exit
status 1). -/
inductive ProgError where
  | systemExit : String → ProgError
  | uncaught : String → ProgError
deriving DecidableEq, Repr

/-- The message of the `SystemExit` raised when no SMILES source is
given. -/
def noSourceMsg : String :=
  "Please provide a SMILES string with --smiles or --input."

/-- The file system visible to the script: path to contents of the file
there, `none` when no such file exists. -/
def Files : Type := String → Option String

/-- `args.input.read_text().splitlines()[0].strip()`: a missing file
raises `FileNotFoundError`, an empty file (no lines at all) raises
`IndexError` on the `[0]` index; otherwise the first line, stripped. -/
def readInputFile (files : Files) (p : String) : Except ProgError String :=
  match files p with
  | none => .error (.uncaught "FileNotFoundError")
  | some content =>
    match pySplitlines content with
    | [] => .error (.uncaught "IndexError")
    | line :: _ => .ok (pyStrip line)

/-- `read_smiles`: a truthy `--smiles` wins (`"-"` means read stdin),
otherwise a given `--input` file's first line is used, otherwise
`SystemExit` with a usage message. -/
def read_smiles (stdin : String) (files : Files) (a : Args) :
    Except ProgError String :=
  if optStrTruthy a.smiles then
    (if a.smiles = some "-" then .ok (pyStrip stdin)
     else .ok (pyStrip (a.smiles.getD "")))
  else
    match a.input with
    | some p => readInputFile files p
    | none => .error (.systemExit noSourceMsg)

/-- The external cheminformatics library (RDKit), abstracted: `Mol` is its
opaque molecule type.  `molFromSmiles` is `Chem.MolFromSmiles` (`none` for
an unparseable SMILES), `compute2DCoords` is `AllChem.Compute2DCoords`
(coordinate annotation, modelled as returning the updated molecule),
`drawSVG w h m` is the `MolDraw2DSVG` drawing text for `m`, and
`molToImage m (w, h)` is the encoded raster image (its bytes modelled as a
`String`). -/
structure Lib (Mol : Type) where
  molFromSmiles : String → Option Mol
  compute2DCoords : Mol → Mol
  drawSVG : Int → Int → Mol → String
  molToImage : Mol → Int × Int → String

/-- `build_molecule`: parse the SMILES; `None` from the library raises
`SystemExit` echoing the offending string; otherwise 2D coordinates are
computed on the molecule. -/
def build_molecule {Mol : Type} (lib : Lib Mol) (smiles : String) :
    Except ProgError Mol :=
  match lib.molFromSmiles smiles with
  | none => .error (.systemExit ("Invalid SMILES string: " ++ smiles))
  | some m => .ok (lib.compute2DCoords m)

/-- One filesystem side effect of the script: `mkdirParents d` is
`Path(d).mkdir(parents=True, exist_ok=True)` (create `d` and any missing
ancestors, no error if present); `write p c` creates or overwrites the
file at `p` with contents `c`. -/
inductive FsEffect where
  | mkdirParents : String → FsEffect
  | write : String → String → FsEffect
deriving DecidableEq, Repr

/-- `save_drawing`, as its trace of filesystem effects: ensure the output
path's parent directories exist, then write either the SVG drawing text
(when the lowercased suffix is `".svg"`) or the library-encoded raster
image to the output path. -/
def save_drawing {Mol : Type} (lib : Lib Mol) (m : Mol) (output : String)
    (size : Int × Int) : List FsEffect :=
  let pre := [FsEffect.mkdirParents (pathParent output)]
  if asciiLower (pathSuffix output) = ".svg" then
    pre ++ [FsEffect.write output (lib.drawSVG size.1 size.2 m)]
  else
    pre ++ [FsEffect.write output (lib.molToImage m size)]

/-- The observable outcome of one invocation after argument parsing:
normal termination (exit status 0) with the filesystem effects performed,
`SystemExit` with a message (status 1), or an unhandled exception (status
1, traceback). -/
inductive Outcome where
  | success : List FsEffect → Outcome
  | exit : String → Outcome
  | crash : String → Outcome
deriving DecidableEq, Repr

/-- Process exit status of an outcome (`SystemExit` with a string message
and an unhandled exception both exit with status 1). -/
def Outcome.exitCode : Outcome → Nat
  | .success _ => 0
  | _ => 1

/-- Filesystem effects performed by an outcome: on any error the script
has not touched the filesystem (both errors are raised before
`save_drawing` runs). -/
def Outcome.fsEffects : Outcome → List FsEffect
  | .success es => es
  | _ => []

/-- `main` after `parse_args`: `read_smiles`, then `build_molecule`, then
`save_drawing`; an error at any step terminates the process there. -/
def main {Mol : Type} (lib : Lib Mol) (stdin : String) (files : Files)
    (a : Args) : Outcome :=
  match read_smiles stdin files a with
  | .error (.systemExit m) => .exit m
  | .error (.uncaught e) => .crash e
  | .ok smiles =>
    match build_molecule lib smiles with
    | .error (.systemExit m) => .exit m
    | .error (.uncaught e) => .crash e
    | .ok mol => .success (save_drawing lib mol a.output (a.width, a.height))

/-- The spec's wording in claim C1 for input-file resolution, stated as
its own definition for comparison with `read_smiles`: the first non-empty
line of the file, trimmed. -/
def specFirstNonEmptyLine (content : String) : Option String :=
  ((pySplitlines content).find? (fun l => decide (l ≠ ""))).map pyStrip

/-- Concrete library instantiation used to evaluate the theorems on
concrete inputs: a molecule is the SMILES string it was parsed from; the
empty string and "bad" are rejected; the two renderers give distinct
recognisable outputs. -/
def lib0 : Lib String where
  molFromSmiles s := if s = "" || s = "bad" then none else some s
  compute2DCoords m := m
  drawSVG _ _ m := "<svg>" ++ m ++ "</svg>"
  molToImage m _ := "PNG:" ++ m

/-- Empty standard input, used when instantiating theorems on concrete
runs that never read stdin. -/
def stdin0 : String := ""

/-- Concrete file system for evaluation: `in.txt` has a blank first line
followed by a SMILES, `blank.txt` is a single blank line, `empty.txt` has
no lines at all. -/
def files0 : Files := fun p =>
  if p = "in.txt" then some "\nCCO\n"
  else if p = "blank.txt" then some "\n"
  else if p = "empty.txt" then some ""
  else none

/-- A truthy `--smiles -` resolves to the stripped stdin contents. -/
theorem read_smiles_dash (stdin : String) (files : Files) (inp : Option String)
    (out : String) (wd ht : Int) :
    read_smiles stdin files ⟨some "-", inp, out, wd, ht⟩ =
      Except.ok (pyStrip stdin) := by
  simp [read_smiles, optStrTruthy]

/-- A truthy `--smiles` other than the sentinel resolves to the stripped
argument, regardless of stdin and of the file system. -/
theorem read_smiles_of_arg (stdin : String) (files : Files) (inp : Option String)
    (out : String) (wd ht : Int) (t : String) (h1 : t ≠ "") (h2 : t ≠ "-") :
    read_smiles stdin files ⟨some t, inp, out, wd, ht⟩ =
      Except.ok (pyStrip t) := by
  simp [read_smiles, optStrTruthy, h1, h2]

/-- Reading the input file never raises `SystemExit`: its failure modes
are unhandled exceptions. -/
theorem readInputFile_not_exit (files : Files) (p m : String) :
    readInputFile files p ≠ Except.error (ProgError.systemExit m) := by
  unfold readInputFile
  cases hf : files p with
  | none => simp
  | some c =>
    rcases hl : pySplitlines c with _ | ⟨l, ls⟩ <;> simp [hl]

/-- The only `SystemExit` raised by `read_smiles` carries the usage
message. -/
theorem read_smiles_exit_msg (stdin : String) (files : Files) (a : Args)
    (m : String)
    (h : read_smiles stdin files a = Except.error (ProgError.systemExit m)) :
    m = noSourceMsg := by
  unfold read_smiles at h
  by_cases ht : optStrTruthy a.smiles = true
  · rw [if_pos ht] at h
    split at h <;> simp at h
  · rw [if_neg ht] at h
    cases hi : a.input with
    | some p =>
      rw [hi] at h
      exact absurd h (readInputFile_not_exit files p m)
    | none =>
      rw [hi] at h
      simp at h
      exact h.symm

/-- The only `SystemExit` raised by `build_molecule` echoes the offending
SMILES after the fixed message. -/
theorem build_molecule_exit_msg {Mol : Type} (lib : Lib Mol) (s m : String)
    (h : build_molecule lib s = Except.error (ProgError.systemExit m)) :
    m = "Invalid SMILES string: " ++ s := by
  unfold build_molecule at h
  cases hp : lib.molFromSmiles s with
  | none =>
    rw [hp] at h
    simp at h
    exact h.symm
  | some mol =>
    rw [hp] at h
    simp at h

/-- Whatever branch `save_drawing` takes, its effect trace is exactly a
`mkdir -p` of the output's parent followed by one write to the output
path. -/
theorem save_drawing_shape {Mol : Type} (lib : Lib Mol) (m : Mol)
    (output : String) (size : Int × Int) :
    ∃ content, save_drawing lib m output size =
      [FsEffect.mkdirParents (pathParent output),
       FsEffect.write output content] := by
  by_cases h : asciiLower (pathSuffix output) = ".svg"
  · exact ⟨lib.drawSVG size.1 size.2 m, by simp [save_drawing, h]⟩
  · exact ⟨lib.molToImage m size, by simp [save_drawing, h]⟩

/-- Claim C1 counterexample: with `--input in.txt` where the file contents
are "\nCCO\n" (blank first line), `read_smiles` returns the empty string,
whereas the first non-empty line of that file, trimmed, is "CCO" — so the
result is not the first non-empty line. -/
theorem C1_counterexample :
    read_smiles "" files0 ⟨none, some "in.txt", "out.png", 400, 300⟩ =
      Except.ok "" ∧
    specFirstNonEmptyLine "\nCCO\n" = some "CCO" ∧
    ("" : String) ≠ "CCO" :=
  ⟨rfl, rfl, by decide⟩

/-- Claim C1 (amended): `read_smiles` resolves the SMILES from exactly one
source in priority order — a non-empty `--smiles` argument is used (stdin
when it is the sentinel "-"); otherwise the result is the first line of
the `--input` file, which may be empty; in every case the returned string
is stripped of surrounding whitespace. -/
theorem C1_theorem (stdin : String) (files : Files) (a : Args) :
    (∀ s, a.smiles = some s → s ≠ "" → s ≠ "-" →
      read_smiles stdin files a = Except.ok (pyStrip s)) ∧
    (a.smiles = some "-" →
      read_smiles stdin files a = Except.ok (pyStrip stdin)) ∧
    (optStrTruthy a.smiles = false → ∀ p c l ls, a.input = some p →
      files p = some c → pySplitlines c = l :: ls →
      read_smiles stdin files a = Except.ok (pyStrip l)) := by
  refine ⟨?_, ?_, ?_⟩
  · intro s hs hne hdash
    simp [read_smiles, optStrTruthy, hs, hne, hdash]
  · intro hs
    simp [read_smiles, optStrTruthy, hs]
  · intro ht p c l ls hp hc hl
    simp [read_smiles, ht, hp, readInputFile, hc, hl]

/-- Claim C1 witness: a concrete inline run. -/
theorem C1_witness :
    read_smiles "" files0 ⟨some " N ", none, "o.png", 400, 300⟩ =
      Except.ok (pyStrip " N ") :=
  (C1_theorem stdin0 files0 ⟨some " N ", none, "o.png", 400, 300⟩).1 " N "
    rfl (by decide) (by decide)

/-- Claim C3: with neither a truthy `--smiles` nor an `--input` path, the
run ends in `SystemExit` with the usage message, a non-zero exit status,
and no filesystem effect. -/
theorem C3_theorem {Mol : Type} (lib : Lib Mol) (stdin : String)
    (files : Files) (a : Args)
    (h1 : optStrTruthy a.smiles = false) (h2 : a.input = none) :
    main lib stdin files a = Outcome.exit noSourceMsg ∧
    (main lib stdin files a).exitCode ≠ 0 ∧
    (main lib stdin files a).fsEffects = [] := by
  have h : main lib stdin files a = Outcome.exit noSourceMsg := by
    simp [main, read_smiles, h1, h2]
  exact ⟨h, by simp [h, Outcome.exitCode], by simp [h, Outcome.fsEffects]⟩

/-- Claim C3 witness: a concrete run with no SMILES source. -/
theorem C3_witness :
    main lib0 "" files0 ⟨none, none, "o.png", 400, 300⟩ =
      Outcome.exit noSourceMsg ∧
    (main lib0 "" files0 ⟨none, none, "o.png", 400, 300⟩).exitCode ≠ 0 ∧
    (main lib0 "" files0 ⟨none, none, "o.png", 400, 300⟩).fsEffects = [] :=
  C3_theorem lib0 "" files0 ⟨none, none, "o.png", 400, 300⟩ rfl rfl

/-- Claim C4 counterexample: at output "m.SVG" the extension ".SVG"
differs from ".svg", yet `save_drawing` writes the SVG drawing text, not
the library-encoded raster image. -/
theorem C4_counterexample :
    pathSuffix "m.SVG" ≠ ".svg" ∧
    save_drawing lib0 "CCO" "m.SVG" (400, 300) =
      [FsEffect.mkdirParents ".",
       FsEffect.write "m.SVG" "<svg>CCO</svg>"] ∧
    lib0.molToImage "CCO" (400, 300) = "PNG:CCO" ∧
    ("<svg>CCO</svg>" : String) ≠ "PNG:CCO" :=
  ⟨by decide, rfl, rfl, by decide⟩

/-- Claim C4 (amended): the output format is selected solely by the output
path's extension, compared case-insensitively: an extension that
lowercases to ".svg" makes `save_drawing` write the SVG drawing text, and
any other extension makes it write the library-encoded raster image. -/
theorem C4_theorem {Mol : Type} (lib : Lib Mol) (m : Mol) (output : String)
    (size : Int × Int) :
    (asciiLower (pathSuffix output) = ".svg" →
      save_drawing lib m output size =
        [FsEffect.mkdirParents (pathParent output),
         FsEffect.write output (lib.drawSVG size.1 size.2 m)]) ∧
    (asciiLower (pathSuffix output) ≠ ".svg" →
      save_drawing lib m output size =
        [FsEffect.mkdirParents (pathParent output),
         FsEffect.write output (lib.molToImage m size)]) := by
  constructor <;> intro h <;> simp [save_drawing, h]

/-- Claim C4 witness: a concrete raster run at "o.png". -/
theorem C4_witness :
    save_drawing lib0 "CCO" "o.png" (400, 300) =
      [FsEffect.mkdirParents (pathParent "o.png"),
       FsEffect.write "o.png" (lib0.molToImage "CCO" (400, 300))] :=
  (C4_theorem lib0 "CCO" "o.png" (400, 300)).2 (by decide)

/-- Claim C9: an empty-string `--smiles` is falsy, so `read_smiles`
behaves exactly as if `--smiles` were absent: it reads the `--input` file
when one is given and otherwise raises the no-source `SystemExit`, never
using the empty string as the SMILES. -/
theorem C9_theorem (stdin : String) (files : Files) (inp : Option String)
    (out : String) (wd ht : Int) :
    read_smiles stdin files ⟨some "", inp, out, wd, ht⟩ =
      read_smiles stdin files ⟨none, inp, out, wd, ht⟩ ∧
    (∀ p, inp = some p →
      read_smiles stdin files ⟨some "", inp, out, wd, ht⟩ =
        readInputFile files p) ∧
    (inp = none →
      read_smiles stdin files ⟨some "", inp, out, wd, ht⟩ =
        Except.error (ProgError.systemExit noSourceMsg)) := by
  refine ⟨by simp [read_smiles, optStrTruthy], ?_, ?_⟩
  · intro p hp
    simp [read_smiles, optStrTruthy, hp]
  · intro hi
    simp [read_smiles, optStrTruthy, hi]

/-- Claim C9 witness: with `--smiles ""` and no input, the usage
`SystemExit` is raised. -/
theorem C9_witness :
    read_smiles "" files0 ⟨some "", none, "o.png", 400, 300⟩ =
      Except.error (ProgError.systemExit noSourceMsg) :=
  (C9_theorem stdin0 files0 none "o.png" 400 300).2.2 rfl

/-- Claim C10: extension matching is case-insensitive — whenever the
output path's suffix lowercases to ".svg", `save_drawing` writes the SVG
drawing text. -/
theorem C10_theorem {Mol : Type} (lib : Lib Mol) (m : Mol) (output : String)
    (size : Int × Int) (h : asciiLower (pathSuffix output) = ".svg") :
    save_drawing lib m output size =
      [FsEffect.mkdirParents (pathParent output),
       FsEffect.write output (lib.drawSVG size.1 size.2 m)] := by
  simp [save_drawing, h]

/-- Claim C10 witness: the upper-case extension ".SVG" produces SVG
text. -/
theorem C10_witness :
    asciiLower (pathSuffix "n.SVG") = ".svg" ∧
    save_drawing lib0 "CCO" "n.SVG" (400, 300) =
      [FsEffect.mkdirParents (pathParent "n.SVG"),
       FsEffect.write "n.SVG" (lib0.drawSVG 400 300 "CCO")] :=
  ⟨by decide, C10_theorem lib0 "CCO" "n.SVG" (400, 300) (by decide)⟩

/-- Claim C2: whenever the resolved SMILES is one the library reports
unparseable (`molFromSmiles` returns `none`), the run ends in `SystemExit`
whose message is the fixed text followed by the offending SMILES, the exit
status is non-zero, and no file or directory has been created. -/
theorem C2_theorem {Mol : Type} (lib : Lib Mol) (stdin : String)
    (files : Files) (a : Args) (s : String)
    (hs : read_smiles stdin files a = Except.ok s)
    (hp : lib.molFromSmiles s = none) :
    main lib stdin files a =
      Outcome.exit ("Invalid SMILES string: " ++ s) ∧
    (main lib stdin files a).exitCode ≠ 0 ∧
    (main lib stdin files a).fsEffects = [] := by
  have h : main lib stdin files a =
      Outcome.exit ("Invalid SMILES string: " ++ s) := by
    simp [main, hs, build_molecule, hp]
  exact ⟨h, by simp [h, Outcome.exitCode], by simp [h, Outcome.fsEffects]⟩

/-- Claim C2 witness: the concrete unparseable SMILES "bad". -/
theorem C2_witness :
    main lib0 "" files0 ⟨some "bad", none, "o.png", 400, 300⟩ =
      Outcome.exit ("Invalid SMILES string: " ++ "bad") ∧
    (main lib0 "" files0 ⟨some "bad", none, "o.png", 400, 300⟩).exitCode ≠ 0 ∧
    (main lib0 "" files0 ⟨some "bad", none, "o.png", 400, 300⟩).fsEffects = [] :=
  C2_theorem lib0 "" files0 ⟨some "bad", none, "o.png", 400, 300⟩ "bad" rfl rfl

/-- Claim C5: every successful run performs exactly two filesystem
effects, in order — create the output path's missing parent directories,
then write the output file at that path; nothing else is touched. -/
theorem C5_theorem {Mol : Type} (lib : Lib Mol) (stdin : String)
    (files : Files) (a : Args) (es : List FsEffect)
    (h : main lib stdin files a = Outcome.success es) :
    ∃ content, es =
      [FsEffect.mkdirParents (pathParent a.output),
       FsEffect.write a.output content] := by
  cases hr : read_smiles stdin files a with
  | error e =>
    cases e <;> simp [main, hr] at h
  | ok s =>
    cases hb : build_molecule lib s with
    | error e =>
      cases e <;> simp [main, hr, hb] at h
    | ok mol =>
      simp [main, hr, hb] at h
      obtain ⟨c, hc⟩ := save_drawing_shape lib mol a.output (a.width, a.height)
      exact ⟨c, by rw [← h]; exact hc⟩

/-- Claim C5 witness: a concrete successful raster run. -/
theorem C5_witness :
    ∃ content,
      [FsEffect.mkdirParents ".", FsEffect.write "o.png" "PNG:CCO"] =
        [FsEffect.mkdirParents (pathParent "o.png"),
         FsEffect.write "o.png" content] :=
  C5_theorem lib0 "" files0 ⟨some "CCO", none, "o.png", 400, 300⟩
    [FsEffect.mkdirParents ".", FsEffect.write "o.png" "PNG:CCO"] rfl

/-- Claim C6: an invocation `--smiles -` with stdin `t` behaves exactly
like an inline `--smiles` invocation (under any stdin) whose trimmed
argument equals the trimmed stdin text — the whole outcome, output
included, coincides. -/
theorem C6_theorem {Mol : Type} (lib : Lib Mol) (files : Files)
    (inp : Option String) (out : String) (wd ht : Int)
    (stdin stdin2 t : String)
    (h1 : t ≠ "") (h2 : t ≠ "-") (h3 : pyStrip stdin = pyStrip t) :
    main lib stdin files ⟨some "-", inp, out, wd, ht⟩ =
      main lib stdin2 files ⟨some t, inp, out, wd, ht⟩ := by
  unfold main
  rw [read_smiles_dash stdin files inp out wd ht,
    read_smiles_of_arg stdin2 files inp out wd ht t h1 h2, h3]

/-- Claim C6 witness: `--smiles -` with stdin "CCO\n" coincides with
`--smiles CCO`. -/
theorem C6_witness :
    main lib0 "CCO\n" files0 ⟨some "-", none, "o.png", 400, 300⟩ =
      main lib0 "" files0 ⟨some "CCO", none, "o.png", 400, 300⟩ :=
  C6_theorem lib0 files0 none "o.png" 400 300 "CCO\n" "" "CCO"
    (by decide) (by decide) (by decide)

/-- Claim C7 counterexample: with `--input empty.txt` naming an existing
empty file, the run ends in an unhandled `IndexError` — a non-zero-exit
error outcome that is neither of the two user-facing `SystemExit`
messages, so the two named kinds are not the only error outcomes. -/
theorem C7_counterexample :
    main lib0 "" files0 ⟨none, some "empty.txt", "o.png", 400, 300⟩ =
      Outcome.crash "IndexError" ∧
    (main lib0 "" files0
      ⟨none, some "empty.txt", "o.png", 400, 300⟩).exitCode ≠ 0 ∧
    Outcome.crash "IndexError" ≠ Outcome.exit noSourceMsg ∧
    Outcome.crash "IndexError" ≠
      Outcome.exit ("Invalid SMILES string: " ++ "") :=
  ⟨rfl, by decide, by decide, by decide⟩

/-- Claim C7 (amended): every `SystemExit` the script raises carries one
of exactly two user-facing messages — the no-source usage message or the
invalid-SMILES message echoing the offending string — and every non-zero
outcome (`SystemExit` or an unhandled exception such as the `IndexError`
on an empty input file) leaves the filesystem untouched. -/
theorem C7_theorem {Mol : Type} (lib : Lib Mol) (stdin : String)
    (files : Files) (a : Args) :
    (∀ msg, main lib stdin files a = Outcome.exit msg →
      msg = noSourceMsg ∨ ∃ s, msg = "Invalid SMILES string: " ++ s) ∧
    ((main lib stdin files a).exitCode ≠ 0 →
      (main lib stdin files a).fsEffects = []) := by
  constructor
  · intro msg hm
    cases hr : read_smiles stdin files a with
    | error e =>
      cases e with
      | systemExit m =>
        have hmsg : m = msg := by simpa [main, hr] using hm
        exact Or.inl (hmsg ▸ read_smiles_exit_msg stdin files a m hr)
      | uncaught n => simp [main, hr] at hm
    | ok s =>
      cases hb : build_molecule lib s with
      | error e =>
        cases e with
        | systemExit m =>
          have hmsg : m = msg := by simpa [main, hr, hb] using hm
          exact Or.inr ⟨s, hmsg ▸ build_molecule_exit_msg lib s m hb⟩
        | uncaught n => simp [main, hr, hb] at hm
      | ok mol => simp [main, hr, hb] at hm
  · intro hcode
    cases ho : main lib stdin files a with
    | success es => simp [ho, Outcome.exitCode] at hcode
    | exit m => simp [Outcome.fsEffects]
    | crash n => simp [Outcome.fsEffects]

/-- Claim C7 witness: the no-source exit message is one of the two
kinds. -/
theorem C7_witness :
    noSourceMsg = noSourceMsg ∨
      ∃ s, noSourceMsg = "Invalid SMILES string: " ++ s :=
  (C7_theorem lib0 "" files0 ⟨none, none, "o.png", 400, 300⟩).1
    noSourceMsg rfl

/-- Claim C8: when the `--input` file's first line is empty, `read_smiles`
returns the empty string, and — the library rejecting the empty string —
the run ends in the invalid-SMILES `SystemExit` (echoing the empty
offender) with a non-zero exit status. -/
theorem C8_theorem {Mol : Type} (lib : Lib Mol) (stdin : String)
    (files : Files) (a : Args) (p c : String) (ls : List String)
    (h1 : optStrTruthy a.smiles = false) (h2 : a.input = some p)
    (h3 : files p = some c) (h4 : pySplitlines c = "" :: ls)
    (h5 : lib.molFromSmiles "" = none) :
    read_smiles stdin files a = Except.ok "" ∧
    main lib stdin files a =
      Outcome.exit ("Invalid SMILES string: " ++ "") ∧
    (main lib stdin files a).exitCode ≠ 0 := by
  have hr : read_smiles stdin files a = Except.ok "" := by
    simp [read_smiles, h1, h2, readInputFile, h3, h4]
    rfl
  have hmain : main lib stdin files a =
      Outcome.exit ("Invalid SMILES string: " ++ "") := by
    simp [main, hr, build_molecule, h5]
  exact ⟨hr, hmain, by simp [hmain, Outcome.exitCode]⟩

/-- Claim C8 witness: the concrete file `blank.txt` holding a single blank
line. -/
theorem C8_witness :
    read_smiles "" files0 ⟨none, some "blank.txt", "o.png", 400, 300⟩ =
      Except.ok "" ∧
    main lib0 "" files0 ⟨none, some "blank.txt", "o.png", 400, 300⟩ =
      Outcome.exit ("Invalid SMILES string: " ++ "") ∧
    (main lib0 "" files0
      ⟨none, some "blank.txt", "o.png", 400, 300⟩).exitCode ≠ 0 :=
  C8_theorem lib0 "" files0 ⟨none, some "blank.txt", "o.png", 400, 300⟩
    "blank.txt" "\n" [] rfl rfl rfl rfl rfl

end SmilesToImage
